import Mathlib

/-!
Verification development for the django-axes login-attempt guard
(`axes/decorators.py`).

The guard wraps an authentication handler.  It counts consecutive failed
login attempts per client identity (IP address, optionally combined with
the user-agent header) in `AccessAttempt` records, and locks further
attempts out once the stored failure count strictly exceeds a configured
limit, with an optional time-based cool-off that expires stale records.

The embedding below is a direct shallow translation of
`axes/decorators.py`:
  * module-level settings become the `Config` structure;
  * the `AccessAttempt` database table becomes a `List AccessAttempt`
    threaded through every operation as explicit state;
  * `datetime.now()` becomes an explicit `now : Nat` argument, and
    timestamps and durations are natural numbers in a common time unit;
  * `request.META.get(k, default)` becomes `Option String` fields read
    with `Option.getD`;
  * the wrapped handler has already been called, so its result is passed
    in as `resp : Option Response` (`none` models a falsy response);
  * the `logout(request)` side effect becomes the `logged_out` flag of
    the result.
-/

/-- An inbound HTTP request, restricted to the fields the guard reads.
`remote_addr`, `http_user_agent`, `http_accept` and `path_info` model the
corresponding `request.META` entries, which may be absent. -/
structure Request where
  method : String
  remote_addr : Option String
  http_user_agent : Option String
  http_accept : Option String
  path_info : Option String
  GET : List (String × String)
  POST : List (String × String)
deriving DecidableEq

/-- The wrapped handler result, restricted to the fields the guard reads:
whether a location header is present, and the HTTP status code. -/
structure Response where
  has_header_location : Bool
  status_code : Nat
deriving DecidableEq

/-- One row of the `AccessAttempt` table. -/
structure AccessAttempt where
  user_agent : String
  ip_address : String
  get_data : String
  post_data : String
  http_accept : String
  path_info : String
  failures_since_start : Nat
  attempt_time : Nat
deriving BEq, DecidableEq

/-- The module-level settings of `axes/decorators.py`.  `COOLOFF_TIME`,
`LOCKOUT_TEMPLATE` and `LOCKOUT_URL` default to `None` in the source and
are tested for Python truthiness, hence the `Option` types. -/
structure Config where
  FAILURE_LIMIT : Nat
  LOCK_OUT_AT_FAILURE : Bool
  USE_USER_AGENT : Bool
  COOLOFF_TIME : Option Nat
  LOCKOUT_TEMPLATE : Option String
  LOCKOUT_URL : Option String
deriving DecidableEq

/-- Python truthiness of an optional duration: `None` and the zero
duration are falsy. -/
def truthyDuration : Option Nat → Bool
  | none => false
  | some d => d != 0

/-- Python truthiness of an optional string: `None` and the empty string
are falsy. -/
def truthyString : Option String → Bool
  | none => false
  | some s => s != ""

/-- `query2str(items)` from the source: join `k=v` lines with newlines. -/
def query2str (items : List (String × String)) : String :=
  String.intercalate "\n" (items.map (fun kv => kv.1 ++ "=" ++ kv.2))

/-- The identity filter used by `get_user_attempt`: match on IP address,
and additionally on the user-agent header when `USE_USER_AGENT` is set.
Defaults mirror `request.META.get('REMOTE_ADDR', '')` and
`request.META.get('HTTP_USER_AGENT', '<unknown>')`. -/
def matchesIdentity (cfg : Config) (req : Request) (a : AccessAttempt) : Bool :=
  if cfg.USE_USER_AGENT then
    a.user_agent == req.http_user_agent.getD "<unknown>" &&
      a.ip_address == req.remote_addr.getD ""
  else
    a.ip_address == req.remote_addr.getD ""

/-- `get_user_attempt(request)` from the source.  Filters the table by
identity and takes the first row.  If a cool-off duration is configured
(truthy) and the row is older than it, the row is deleted and `None` is
returned.  The result pairs the looked-up row with the possibly updated
table. -/
def get_user_attempt (cfg : Config) (now : Nat) (store : List AccessAttempt)
    (req : Request) : Option AccessAttempt × List AccessAttempt :=
  match store.filter (matchesIdentity cfg req) with
  | [] => (none, store)
  | attempt :: _ =>
    match cfg.COOLOFF_TIME with
    | some d =>
      if d ≠ 0 ∧ attempt.attempt_time + d < now then
        (none, store.erase attempt)
      else
        (some attempt, store)
    | none => (some attempt, store)

/-- The row written by `attempt.save()` on a repeated failure: `get_data`
and `post_data` are appended to with a delimiter, while `http_accept` and
`path_info` are assigned the values of the current request, the failure
count is set and the timestamp refreshed. -/
def updatedAttempt (now : Nat) (req : Request) (a : AccessAttempt)
    (failures : Nat) : AccessAttempt :=
  { a with
    get_data := a.get_data ++ "\n---------\n" ++ query2str req.GET,
    post_data := a.post_data ++ "\n---------\n" ++ query2str req.POST,
    http_accept := req.http_accept.getD "<unknown>",
    path_info := req.path_info.getD "<unknown>",
    failures_since_start := failures,
    attempt_time := now }

/-- The row written by `AccessAttempt.objects.create` on a first failure.
The create call in `check_request` does not pass `attempt_time`; the
`AccessAttempt` model class is not among the sources here.  Modelled from
the spec: `last_attempt_time` is the timestamp of the most recent failed
attempt, so creation stamps the current time. -/
def newAttempt (now : Nat) (req : Request) (failures : Nat) : AccessAttempt :=
  { user_agent := req.http_user_agent.getD "<unknown>"
    ip_address := req.remote_addr.getD ""
    get_data := query2str req.GET
    post_data := query2str req.POST
    http_accept := req.http_accept.getD "<unknown>"
    path_info := req.path_info.getD "<unknown>"
    failures_since_start := failures
    attempt_time := now }

/-- Replace the first occurrence of a row in the table, modelling an ORM
`save()` of a modified row. -/
def replaceAttempt : List AccessAttempt → AccessAttempt → AccessAttempt →
    List AccessAttempt
  | [], _, _ => []
  | x :: xs, a, b => if x == a then b :: xs else x :: replaceAttempt xs a b

/-- Outcome of `check_request`: its boolean return value (`true` means
not blocked), the updated table, and whether `logout(request)` ran. -/
structure CheckResult where
  not_blocked : Bool
  store : List AccessAttempt
  logged_out : Bool
deriving DecidableEq

/-- The body of `check_request` after the `get_user_attempt` call, taking
the lookup result (row and updated table) as an argument. -/
def check_request_core (cfg : Config) (now : Nat) (req : Request)
    (unsuccessful : Bool) :
    Option AccessAttempt × List AccessAttempt → CheckResult
  | (attempt, store1) =>
    let failures := match attempt with
      | some a => a.failures_since_start
      | none => 0
    if cfg.FAILURE_LIMIT < failures ∧ cfg.LOCK_OUT_AT_FAILURE = true then
      { not_blocked := false, store := store1, logged_out := true }
    else if unsuccessful then
      match attempt with
      | some a =>
        { not_blocked := true,
          store := replaceAttempt store1 a (updatedAttempt now req a (failures + 1)),
          logged_out := false }
      | none =>
        { not_blocked := true,
          store := store1 ++ [newAttempt now req (failures + 1)],
          logged_out := false }
    else
      match attempt with
      | some a =>
        { not_blocked := true, store := store1.erase a, logged_out := false }
      | none =>
        { not_blocked := true, store := store1, logged_out := false }

/-- `check_request(request, login_unsuccessful)` from the source: look up
the record, lock out (with a forced logout) when the stored count already
strictly exceeds the limit and lockout is enabled, otherwise record the
failure or clear the record. -/
def check_request (cfg : Config) (now : Nat) (store : List AccessAttempt)
    (req : Request) (unsuccessful : Bool) : CheckResult :=
  check_request_core cfg now req unsuccessful (get_user_attempt cfg now store req)

/-- The `login_unsuccessful` expression of `decorated_login`:
`response and not response.has_header('location') and
response.status_code != 302`.  A falsy handler result (`none`) makes the
whole conjunction falsy. -/
def login_unsuccessful : Option Response → Bool
  | none => false
  | some r => !r.has_header_location && r.status_code != 302

/-- Whether an invocation is classified as an unsuccessful login attempt:
the classification is only ever made inside the `POST` branch of
`decorated_login`, so a non-POST request is never classified
unsuccessful. -/
def classifiedUnsuccessful (req : Request) (resp : Option Response) : Bool :=
  req.method == "POST" && login_unsuccessful resp

/-- The response produced by the guard: either the wrapped handler result
passed through unchanged, or one of the three lockout responses. -/
inductive GuardResponse where
  | original (resp : Option Response)
  | templateResponse (template : String) (cooloff_time : Option Nat)
      (failure_limit : Nat)
  | redirect (url : String)
  | plainMessage (msg : String)
deriving DecidableEq

/-- The body of the plain lockout message when a cool-off is configured. -/
def tryAgainText : String :=
  "Account locked: too many login attempts.  Please try again later."

/-- The body of the plain lockout message when no cool-off is configured. -/
def contactAdminText : String :=
  "Account locked: too many login attempts.  Contact an admin to unlock your account."

/-- The lockout-response precedence chain of `decorated_login`: a
configured template wins, else a configured lockout URL, else a plain
message whose wording depends on whether a cool-off is configured. -/
def lockout_response (cfg : Config) : GuardResponse :=
  if truthyString cfg.LOCKOUT_TEMPLATE then
    .templateResponse (cfg.LOCKOUT_TEMPLATE.getD "") cfg.COOLOFF_TIME
      cfg.FAILURE_LIMIT
  else if truthyString cfg.LOCKOUT_URL then
    .redirect (cfg.LOCKOUT_URL.getD "")
  else if truthyDuration cfg.COOLOFF_TIME then
    .plainMessage tryAgainText
  else
    .plainMessage contactAdminText

/-- Outcome of one guarded invocation: the response returned to the
client, the updated table, and whether `logout(request)` ran. -/
structure GuardResult where
  response : GuardResponse
  store : List AccessAttempt
  logged_out : Bool
deriving DecidableEq

/-- `decorated_login` from the source.  `funcName` is `func.__name__` of
the wrapped callable; `resp` is the result of calling it.  A recursive
internal call (wrapped callable named `decorated_login`) returns the
result untouched.  A POST request is classified and run through
`check_request`; when that blocks, the lockout response chain is used.
Any other request returns the result untouched. -/
def decorated_login (cfg : Config) (now : Nat) (funcName : String)
    (store : List AccessAttempt) (req : Request) (resp : Option Response) :
    GuardResult :=
  if funcName = "decorated_login" then
    { response := .original resp, store := store, logged_out := false }
  else if req.method = "POST" then
    let c := check_request cfg now store req (login_unsuccessful resp)
    if c.not_blocked then
      { response := .original resp, store := c.store, logged_out := c.logged_out }
    else
      { response := lockout_response cfg, store := c.store,
        logged_out := c.logged_out }
  else
    { response := .original resp, store := store, logged_out := false }

/-- Whether a guard response is one of the lockout responses rather than
the wrapped handler result passed through. -/
def isLockoutResp : GuardResponse → Bool
  | .original _ => false
  | _ => true

/-! ### Concrete fixtures used by witnesses and counterexamples -/

/-- The default configuration of the source: limit 3, lockout on, no
user-agent keying, no cool-off, no template, no URL. -/
def cfgDefault : Config :=
  { FAILURE_LIMIT := 3, LOCK_OUT_AT_FAILURE := true, USE_USER_AGENT := false,
    COOLOFF_TIME := none, LOCKOUT_TEMPLATE := none, LOCKOUT_URL := none }

/-- The default configuration with a one-unit cool-off. -/
def cfgCooloff : Config := { cfgDefault with COOLOFF_TIME := some 1 }

/-- A configuration with a lockout template and a cool-off. -/
def cfgTemplate : Config :=
  { cfgDefault with
    COOLOFF_TIME := some 1
    LOCKOUT_TEMPLATE := some "lockout.html" }

/-- A failed login submission from IP 10.0.0.1. -/
def reqPost : Request :=
  { method := "POST", remote_addr := some "10.0.0.1",
    http_user_agent := some "agent-a", http_accept := some "text/html",
    path_info := some "/admin/", GET := [("next", "/admin/")],
    POST := [("username", "bob")] }

/-- A plain page fetch from the same identity. -/
def reqGet : Request := { reqPost with method := "GET" }

/-- A handler result signalling a failed login: no location header,
status 200. -/
def respFail : Response := { has_header_location := false, status_code := 200 }

/-- A handler result signalling a successful login: redirect with a
location header. -/
def respOk : Response := { has_header_location := true, status_code := 302 }

/-- A stored record for 10.0.0.1 with four failures, strictly over the
default limit of three. -/
def attemptOver : AccessAttempt :=
  { user_agent := "agent-a", ip_address := "10.0.0.1", get_data := "g=1",
    post_data := "p=1", http_accept := "ACC-OLD", path_info := "/old/",
    failures_since_start := 4, attempt_time := 10 }

/-- A stored record for 10.0.0.1 with two failures, under the default
limit. -/
def attemptTwo : AccessAttempt :=
  { attemptOver with failures_since_start := 2 }

/-- A stored record for 10.0.0.1 with five failures whose timestamp is
far in the past. -/
def attemptStale : AccessAttempt :=
  { attemptOver with failures_since_start := 5, attempt_time := 0 }

/-! ### Helper lemmas shared by the claim theorems -/

theorem get_user_attempt_of_filter_nil (cfg : Config) (now : Nat)
    (store : List AccessAttempt) (req : Request)
    (hf : store.filter (matchesIdentity cfg req) = []) :
    get_user_attempt cfg now store req = (none, store) := by
  unfold get_user_attempt
  rw [hf]

theorem get_user_attempt_some (cfg : Config) (now : Nat)
    (store : List AccessAttempt) (req : Request) (a : AccessAttempt)
    (h : (get_user_attempt cfg now store req).1 = some a) :
    get_user_attempt cfg now store req = (some a, store) := by
  cases hf : store.filter (matchesIdentity cfg req) with
  | nil => simp [get_user_attempt, hf] at h
  | cons x xs =>
    cases hc : cfg.COOLOFF_TIME with
    | none =>
      simp only [get_user_attempt, hf, hc] at h ⊢
      simp only [Option.some.injEq] at h
      rw [h]
    | some d =>
      by_cases hcond : d ≠ 0 ∧ x.attempt_time + d < now
      · simp only [get_user_attempt, hf, hc, if_pos hcond] at h
        simp at h
      · simp only [get_user_attempt, hf, hc, if_neg hcond] at h ⊢
        simp only [Option.some.injEq] at h
        rw [h]

theorem check_request_blocked (cfg : Config) (now : Nat)
    (store : List AccessAttempt) (req : Request) (unsuccessful : Bool)
    (a : AccessAttempt)
    (ha : (get_user_attempt cfg now store req).1 = some a)
    (hover : cfg.FAILURE_LIMIT < a.failures_since_start)
    (hlock : cfg.LOCK_OUT_AT_FAILURE = true) :
    check_request cfg now store req unsuccessful =
      { not_blocked := false, store := store, logged_out := true } := by
  have hp := get_user_attempt_some cfg now store req a ha
  unfold check_request
  rw [hp]
  simp [check_request_core, hover, hlock]

theorem check_request_success_some (cfg : Config) (now : Nat)
    (store : List AccessAttempt) (req : Request) (a : AccessAttempt)
    (ha : (get_user_attempt cfg now store req).1 = some a)
    (hnb : ¬(cfg.FAILURE_LIMIT < a.failures_since_start ∧
      cfg.LOCK_OUT_AT_FAILURE = true)) :
    check_request cfg now store req false =
      { not_blocked := true, store := store.erase a, logged_out := false } := by
  have hp := get_user_attempt_some cfg now store req a ha
  unfold check_request
  rw [hp]
  simp [check_request_core, hnb]

theorem check_request_fail_some (cfg : Config) (now : Nat)
    (store : List AccessAttempt) (req : Request) (a : AccessAttempt)
    (ha : (get_user_attempt cfg now store req).1 = some a)
    (hnb : ¬(cfg.FAILURE_LIMIT < a.failures_since_start ∧
      cfg.LOCK_OUT_AT_FAILURE = true)) :
    check_request cfg now store req true =
      { not_blocked := true,
        store := replaceAttempt store a
          (updatedAttempt now req a (a.failures_since_start + 1)),
        logged_out := false } := by
  have hp := get_user_attempt_some cfg now store req a ha
  unfold check_request
  rw [hp]
  simp [check_request_core, hnb]

theorem check_request_fail_of_lookup_none (cfg : Config) (now : Nat)
    (store store2 : List AccessAttempt) (req : Request)
    (hnone : get_user_attempt cfg now store req = (none, store2)) :
    check_request cfg now store req true =
      { not_blocked := true, store := store2 ++ [newAttempt now req 1],
        logged_out := false } := by
  unfold check_request
  rw [hnone]
  simp [check_request_core]

theorem check_request_success_of_lookup_none (cfg : Config) (now : Nat)
    (store store2 : List AccessAttempt) (req : Request)
    (hnone : get_user_attempt cfg now store req = (none, store2)) :
    check_request cfg now store req false =
      { not_blocked := true, store := store2, logged_out := false } := by
  unfold check_request
  rw [hnone]
  simp [check_request_core]

theorem decorated_login_post (cfg : Config) (now : Nat) (funcName : String)
    (store : List AccessAttempt) (req : Request) (resp : Option Response)
    (hn : funcName ≠ "decorated_login") (hm : req.method = "POST") :
    decorated_login cfg now funcName store req resp =
      (let c := check_request cfg now store req (login_unsuccessful resp)
       if c.not_blocked then
         { response := .original resp, store := c.store,
           logged_out := c.logged_out }
       else
         { response := lockout_response cfg, store := c.store,
           logged_out := c.logged_out }) := by
  unfold decorated_login
  rw [if_neg hn, if_pos hm]

theorem check_request_not_blocked_some (cfg : Config) (now : Nat)
    (store : List AccessAttempt) (req : Request) (unsuccessful : Bool)
    (a : AccessAttempt)
    (ha : (get_user_attempt cfg now store req).1 = some a)
    (hnb : ¬(cfg.FAILURE_LIMIT < a.failures_since_start ∧
      cfg.LOCK_OUT_AT_FAILURE = true)) :
    (check_request cfg now store req unsuccessful).not_blocked = true := by
  cases unsuccessful with
  | false => rw [check_request_success_some cfg now store req a ha hnb]
  | true => rw [check_request_fail_some cfg now store req a ha hnb]

theorem isLockoutResp_lockout_response (cfg : Config) :
    isLockoutResp (lockout_response cfg) = true := by
  unfold lockout_response
  split_ifs <;> rfl

/-! ### Claim theorems -/

/-- Claim C2: when the wrapped callable is the guard entry point itself
(a recursive internal call), the guard returns the handler result
unmodified, the attempt table is left exactly as it was, no failure is
recorded and no logout happens; the equation holds uniformly in the
table, so the outcome does not depend on the table at all. -/
theorem claim_C2_internal_call_untracked (cfg : Config) (now : Nat)
    (store : List AccessAttempt) (req : Request) (resp : Option Response) :
    decorated_login cfg now "decorated_login" store req resp =
      { response := .original resp, store := store, logged_out := false } := by
  unfold decorated_login
  rw [if_pos rfl]

/-- Claim C3: for an invocation whose handler returned an actual
response object, the attempt is classified unsuccessful exactly when the
request method is POST, the response has no location header, and its
status code is not 302. -/
theorem claim_C3_unsuccessful_iff (req : Request) (r : Response) :
    classifiedUnsuccessful req (some r) = true ↔
      (req.method = "POST" ∧ r.has_header_location = false ∧
        r.status_code ≠ 302) := by
  simp [classifiedUnsuccessful, login_unsuccessful, and_assoc]

/-- Claim C4: when the looked-up record is already strictly over the
limit and lockout is enabled, `check_request` blocks, runs the logout,
and returns the table unchanged: the failure count is not incremented,
the timestamp is not refreshed and no diagnostic field is touched. -/
theorem claim_C4_blocked_frame (cfg : Config) (now : Nat)
    (store : List AccessAttempt) (req : Request) (unsuccessful : Bool)
    (a : AccessAttempt)
    (ha : (get_user_attempt cfg now store req).1 = some a)
    (hover : cfg.FAILURE_LIMIT < a.failures_since_start)
    (hlock : cfg.LOCK_OUT_AT_FAILURE = true) :
    check_request cfg now store req unsuccessful =
      { not_blocked := false, store := store, logged_out := true } :=
  check_request_blocked cfg now store req unsuccessful a ha hover hlock

/-- Witness for claim C4 at a concrete over-limit record. -/
theorem claim_C4_witness :
    check_request cfgDefault 20 [attemptOver] reqPost true =
      { not_blocked := false, store := [attemptOver], logged_out := true } :=
  claim_C4_blocked_frame cfgDefault 20 [attemptOver] reqPost true attemptOver
    (by decide) (by decide) rfl

/-- Claim C9: a non-POST request through the guard (wrapped callable not
the guard itself) is neither tracked nor blocked: the handler result is
passed through unchanged and the attempt table is untouched, whatever it
contains. -/
theorem claim_C9_non_post_untracked (cfg : Config) (now : Nat)
    (funcName : String) (store : List AccessAttempt) (req : Request)
    (resp : Option Response)
    (hn : funcName ≠ "decorated_login") (hm : req.method ≠ "POST") :
    decorated_login cfg now funcName store req resp =
      { response := .original resp, store := store, logged_out := false } := by
  unfold decorated_login
  rw [if_neg hn, if_neg hm]

/-- Witness for claim C9: a GET request from an identity whose record is
over the limit with lockout enabled still passes through untouched. -/
theorem claim_C9_witness :
    decorated_login cfgDefault 20 "login" [attemptOver] reqGet
        (some respFail) =
      { response := .original (some respFail), store := [attemptOver],
        logged_out := false } :=
  claim_C9_non_post_untracked cfgDefault 20 "login" [attemptOver] reqGet
    (some respFail) (by decide) (by decide)

/-- Claim C1: for a guarded POST whose identity has an existing
non-expired record, the guard blocks exactly when the stored failure
count strictly exceeds the limit and lockout is enabled; and, with the
default limit of 3, four consecutive failed submissions from 10.0.0.1
each pass through while the fifth is blocked. -/
theorem claim_C1_blocked_iff_over_limit (cfg : Config) (now : Nat)
    (funcName : String) (store : List AccessAttempt) (req : Request)
    (resp : Option Response) (a : AccessAttempt)
    (hn : funcName ≠ "decorated_login") (hm : req.method = "POST")
    (ha : (get_user_attempt cfg now store req).1 = some a) :
    (isLockoutResp
        (decorated_login cfg now funcName store req resp).response = true ↔
      (cfg.FAILURE_LIMIT < a.failures_since_start ∧
        cfg.LOCK_OUT_AT_FAILURE = true)) ∧
    (let s1 := decorated_login cfgDefault 1 "login" [] reqPost (some respFail)
     let s2 := decorated_login cfgDefault 2 "login" s1.store reqPost
       (some respFail)
     let s3 := decorated_login cfgDefault 3 "login" s2.store reqPost
       (some respFail)
     let s4 := decorated_login cfgDefault 4 "login" s3.store reqPost
       (some respFail)
     let s5 := decorated_login cfgDefault 5 "login" s4.store reqPost
       (some respFail)
     isLockoutResp s1.response = false ∧ isLockoutResp s2.response = false ∧
     isLockoutResp s3.response = false ∧ isLockoutResp s4.response = false ∧
     isLockoutResp s5.response = true) := by
  constructor
  · by_cases hb : cfg.FAILURE_LIMIT < a.failures_since_start ∧
        cfg.LOCK_OUT_AT_FAILURE = true
    · rw [decorated_login_post cfg now funcName store req resp hn hm,
        check_request_blocked cfg now store req (login_unsuccessful resp) a
          ha hb.1 hb.2]
      simp [isLockoutResp_lockout_response, hb.1, hb.2]
    · have hnbk := check_request_not_blocked_some cfg now store req
        (login_unsuccessful resp) a ha hb
      rw [decorated_login_post cfg now funcName store req resp hn hm]
      simp only [hnbk, if_pos]
      simp [isLockoutResp]
      exact fun h1 => Bool.eq_false_iff.mpr (fun h2 => hb ⟨h1, h2⟩)
  · decide

/-- Witness for claim C1: with the default configuration and a stored
count of four, a further POST is blocked. -/
theorem claim_C1_witness :
    isLockoutResp
      (decorated_login cfgDefault 20 "login" [attemptOver] reqPost
        (some respFail)).response = true :=
  ((claim_C1_blocked_iff_over_limit cfgDefault 20 "login" [attemptOver]
      reqPost (some respFail) attemptOver (by decide) rfl (by decide)).1).mpr
    ⟨by decide, rfl⟩

/-- Claim C5: a guarded successful POST (one not classified
unsuccessful) for an identity with an existing under-limit record
deletes the record and passes the handler result through; a subsequent
failed submission for the same identity, now without a record, creates a
fresh record with failure count 1. -/
theorem claim_C5_success_clears_then_fresh (cfg : Config) (now now2 : Nat)
    (funcName : String) (store : List AccessAttempt) (req req2 : Request)
    (resp resp2 : Option Response) (a : AccessAttempt)
    (hn : funcName ≠ "decorated_login")
    (hm : req.method = "POST") (hm2 : req2.method = "POST")
    (hsucc : login_unsuccessful resp = false)
    (hfail : login_unsuccessful resp2 = true)
    (ha : (get_user_attempt cfg now store req).1 = some a)
    (hunder : a.failures_since_start ≤ cfg.FAILURE_LIMIT)
    (hgone : (store.erase a).filter (matchesIdentity cfg req2) = []) :
    decorated_login cfg now funcName store req resp =
      { response := .original resp, store := store.erase a,
        logged_out := false } ∧
    decorated_login cfg now2 funcName (store.erase a) req2 resp2 =
      { response := .original resp2,
        store := store.erase a ++ [newAttempt now2 req2 1],
        logged_out := false } ∧
    (newAttempt now2 req2 1).failures_since_start = 1 := by
  have hnb : ¬(cfg.FAILURE_LIMIT < a.failures_since_start ∧
      cfg.LOCK_OUT_AT_FAILURE = true) :=
    fun hcontra => absurd hunder (not_le.mpr hcontra.1)
  refine ⟨?_, ?_, rfl⟩
  · rw [decorated_login_post cfg now funcName store req resp hn hm, hsucc,
      check_request_success_some cfg now store req a ha hnb]
    rfl
  · have hnone := get_user_attempt_of_filter_nil cfg now2 (store.erase a)
      req2 hgone
    rw [decorated_login_post cfg now2 funcName (store.erase a) req2 resp2
        hn hm2, hfail,
      check_request_fail_of_lookup_none cfg now2 (store.erase a)
        (store.erase a) req2 hnone]
    rfl

/-- Witness for claim C5: a record with two failures is cleared by a
redirecting login, and the next failed submission starts again at 1. -/
theorem claim_C5_witness :
    decorated_login cfgDefault 20 "login" [attemptTwo] reqPost
        (some respOk) =
      { response := .original (some respOk),
        store := [attemptTwo].erase attemptTwo, logged_out := false } ∧
    decorated_login cfgDefault 21 "login" ([attemptTwo].erase attemptTwo)
        reqPost (some respFail) =
      { response := .original (some respFail),
        store := [attemptTwo].erase attemptTwo ++ [newAttempt 21 reqPost 1],
        logged_out := false } ∧
    (newAttempt 21 reqPost 1).failures_since_start = 1 :=
  claim_C5_success_clears_then_fresh cfgDefault 20 21 "login" [attemptTwo]
    reqPost reqPost (some respOk) (some respFail) attemptTwo (by decide) rfl
    rfl (by decide) (by decide) (by decide) (by decide) (by decide)

/-- Claim C6: with a truthy cool-off configured, a record strictly older
than the cool-off is deleted by the lookup, which returns none; the next
failed submission is not blocked, whatever the stale count was, and it
creates a fresh record with failure count 1. -/
theorem claim_C6_cooloff_expiry (cfg : Config) (now : Nat)
    (store : List AccessAttempt) (req : Request) (d : Nat)
    (a : AccessAttempt) (rest : List AccessAttempt)
    (hc : cfg.COOLOFF_TIME = some d) (hd : d ≠ 0)
    (hf : store.filter (matchesIdentity cfg req) = a :: rest)
    (hexp : a.attempt_time + d < now) :
    get_user_attempt cfg now store req = (none, store.erase a) ∧
    check_request cfg now store req true =
      { not_blocked := true,
        store := store.erase a ++ [newAttempt now req 1],
        logged_out := false } ∧
    (newAttempt now req 1).failures_since_start = 1 := by
  have hlook : get_user_attempt cfg now store req = (none, store.erase a) := by
    simp [get_user_attempt, hf, hc, hd, hexp]
  exact ⟨hlook,
    check_request_fail_of_lookup_none cfg now store (store.erase a) req hlook,
    rfl⟩

/-- Witness for claim C6: a stale record with five failures (over the
limit) is expired by the lookup and the next failed submission starts a
fresh record with count 1 without being blocked. -/
theorem claim_C6_witness :
    get_user_attempt cfgCooloff 2 [attemptStale] reqPost =
      (none, [attemptStale].erase attemptStale) ∧
    check_request cfgCooloff 2 [attemptStale] reqPost true =
      { not_blocked := true,
        store := [attemptStale].erase attemptStale ++ [newAttempt 2 reqPost 1],
        logged_out := false } ∧
    (newAttempt 2 reqPost 1).failures_since_start = 1 :=
  claim_C6_cooloff_expiry cfgCooloff 2 [attemptStale] reqPost 1 attemptStale
    [] rfl (by decide) (by decide) (by decide)

/-- Counterexample to claim C7: on a repeated failure for an existing
record whose stored `http_accept` is "ACC-OLD" and whose `path_info` is
"/old/", the updated row carries exactly the values of the current
request for those two fields; the result is not the previous value with
the new one appended after the delimiter, so these fields are
overwritten, not appended. -/
theorem claim_C7_counterexample :
    ((check_request cfgDefault 20 [attemptTwo] reqPost true).store.map
        (fun x => x.http_accept)) = ["text/html"] ∧
    ((check_request cfgDefault 20 [attemptTwo] reqPost true).store.map
        (fun x => x.path_info)) = ["/admin/"] ∧
    attemptTwo.http_accept = "ACC-OLD" ∧ attemptTwo.path_info = "/old/" ∧
    ("text/html" : String) ≠ "ACC-OLD\n---------\ntext/html" ∧
    ("/admin/" : String) ≠ "/old/\n---------\n/admin/" := by
  decide

/-- Claim C7 as amended: on every repeated failure for an existing
record that is not blocked, the stored row is replaced by one whose
`get_data` and `post_data` are the previous values with the current
request data appended after a delimiter, while `http_accept` and
`path_info` are overwritten with the values of the current request. -/
theorem claim_C7_amended_diagnostics (cfg : Config) (now : Nat)
    (store : List AccessAttempt) (req : Request) (a : AccessAttempt)
    (ha : (get_user_attempt cfg now store req).1 = some a)
    (hnb : ¬(cfg.FAILURE_LIMIT < a.failures_since_start ∧
      cfg.LOCK_OUT_AT_FAILURE = true)) :
    (check_request cfg now store req true).store =
      replaceAttempt store a
        (updatedAttempt now req a (a.failures_since_start + 1)) ∧
    (updatedAttempt now req a (a.failures_since_start + 1)).get_data =
      a.get_data ++ "\n---------\n" ++ query2str req.GET ∧
    (updatedAttempt now req a (a.failures_since_start + 1)).post_data =
      a.post_data ++ "\n---------\n" ++ query2str req.POST ∧
    (updatedAttempt now req a (a.failures_since_start + 1)).http_accept =
      req.http_accept.getD "<unknown>" ∧
    (updatedAttempt now req a (a.failures_since_start + 1)).path_info =
      req.path_info.getD "<unknown>" := by
  refine ⟨?_, rfl, rfl, rfl, rfl⟩
  rw [check_request_fail_some cfg now store req a ha hnb]

/-- Witness for the amended claim C7 at a concrete under-limit record. -/
theorem claim_C7_witness :
    (check_request cfgDefault 20 [attemptTwo] reqPost true).store =
      replaceAttempt [attemptTwo] attemptTwo
        (updatedAttempt 20 reqPost attemptTwo
          (attemptTwo.failures_since_start + 1)) ∧
    (updatedAttempt 20 reqPost attemptTwo
        (attemptTwo.failures_since_start + 1)).get_data =
      attemptTwo.get_data ++ "\n---------\n" ++ query2str reqPost.GET ∧
    (updatedAttempt 20 reqPost attemptTwo
        (attemptTwo.failures_since_start + 1)).post_data =
      attemptTwo.post_data ++ "\n---------\n" ++ query2str reqPost.POST ∧
    (updatedAttempt 20 reqPost attemptTwo
        (attemptTwo.failures_since_start + 1)).http_accept =
      reqPost.http_accept.getD "<unknown>" ∧
    (updatedAttempt 20 reqPost attemptTwo
        (attemptTwo.failures_since_start + 1)).path_info =
      reqPost.path_info.getD "<unknown>" :=
  claim_C7_amended_diagnostics cfgDefault 20 [attemptTwo] reqPost attemptTwo
    (by decide) (by decide)

/-- Claim C8: every blocked guarded POST receives the lockout response,
which is always one of the lockout forms (never the handler result or an
error), and is chosen by a total precedence chain: a truthy template with
the cool-off and limit in scope wins; otherwise a truthy lockout URL as a
redirect; otherwise a plain text whose wording is the try-again message
when a cool-off is configured and the contact-an-admin message
otherwise. -/
theorem claim_C8_lockout_response_chain (cfg : Config) (now : Nat)
    (funcName : String) (store : List AccessAttempt) (req : Request)
    (resp : Option Response) (a : AccessAttempt)
    (hn : funcName ≠ "decorated_login") (hm : req.method = "POST")
    (ha : (get_user_attempt cfg now store req).1 = some a)
    (hover : cfg.FAILURE_LIMIT < a.failures_since_start)
    (hlock : cfg.LOCK_OUT_AT_FAILURE = true) :
    (decorated_login cfg now funcName store req resp).response =
      lockout_response cfg ∧
    isLockoutResp (lockout_response cfg) = true ∧
    (∀ t, cfg.LOCKOUT_TEMPLATE = some t → t ≠ "" →
      lockout_response cfg =
        .templateResponse t cfg.COOLOFF_TIME cfg.FAILURE_LIMIT) ∧
    (truthyString cfg.LOCKOUT_TEMPLATE = false → ∀ u,
      cfg.LOCKOUT_URL = some u → u ≠ "" →
      lockout_response cfg = .redirect u) ∧
    (truthyString cfg.LOCKOUT_TEMPLATE = false →
      truthyString cfg.LOCKOUT_URL = false →
      truthyDuration cfg.COOLOFF_TIME = true →
      lockout_response cfg = .plainMessage tryAgainText) ∧
    (truthyString cfg.LOCKOUT_TEMPLATE = false →
      truthyString cfg.LOCKOUT_URL = false →
      truthyDuration cfg.COOLOFF_TIME = false →
      lockout_response cfg = .plainMessage contactAdminText) := by
  refine ⟨?_, isLockoutResp_lockout_response cfg, ?_, ?_, ?_, ?_⟩
  · rw [decorated_login_post cfg now funcName store req resp hn hm,
      check_request_blocked cfg now store req (login_unsuccessful resp) a
        ha hover hlock]
    rfl
  · intro t ht hne
    have htr : truthyString (some t) = true := by simp [truthyString, hne]
    simp [lockout_response, ht, htr]
  · intro h1 u hu hne
    have hur : truthyString (some u) = true := by simp [truthyString, hne]
    simp [lockout_response, h1, hu, hur]
  · intro h1 h2 h3
    simp [lockout_response, h1, h2, h3]
  · intro h1 h2 h3
    simp [lockout_response, h1, h2, h3]

/-- Witness for claim C8: with a template and a cool-off configured, a
blocked POST gets the template lockout response with the cool-off and
failure limit in scope. -/
theorem claim_C8_witness :
    (decorated_login cfgTemplate 11 "login" [attemptOver] reqPost
        (some respFail)).response = lockout_response cfgTemplate ∧
    lockout_response cfgTemplate =
      .templateResponse "lockout.html" (some 1) 3 := by
  have h := claim_C8_lockout_response_chain cfgTemplate 11 "login"
    [attemptOver] reqPost (some respFail) attemptOver (by decide) rfl
    (by decide) (by decide) rfl
  exact ⟨h.1, h.2.2.1 "lockout.html" rfl (by decide)⟩

/-- Counterexample to claim C10: a guarded POST with a falsy handler
result is classified successful, yet when the identity is already over
the limit with lockout enabled the existing record is not deleted: the
invocation is blocked and the record stays in the table unchanged. -/
theorem claim_C10_counterexample :
    login_unsuccessful none = false ∧
    (decorated_login cfgDefault 20 "login" [attemptOver] reqPost none).store
      = [attemptOver] ∧
    (decorated_login cfgDefault 20 "login" [attemptOver] reqPost
      none).response = lockout_response cfgDefault := by
  decide

/-- Claim C10 as amended: a guarded POST with a falsy handler result is
classified successful; provided the identity is not already blocked (its
stored count is not strictly over the limit with lockout enabled), any
existing record for the identity is deleted rather than incremented and
the falsy result is passed through. -/
theorem claim_C10_falsy_resp_clears (cfg : Config) (now : Nat)
    (funcName : String) (store : List AccessAttempt) (req : Request)
    (a : AccessAttempt)
    (hn : funcName ≠ "decorated_login") (hm : req.method = "POST")
    (ha : (get_user_attempt cfg now store req).1 = some a)
    (hnb : ¬(cfg.FAILURE_LIMIT < a.failures_since_start ∧
      cfg.LOCK_OUT_AT_FAILURE = true)) :
    login_unsuccessful none = false ∧
    decorated_login cfg now funcName store req none =
      { response := .original none, store := store.erase a,
        logged_out := false } := by
  refine ⟨rfl, ?_⟩
  rw [decorated_login_post cfg now funcName store req none hn hm,
    show login_unsuccessful none = false from rfl,
    check_request_success_some cfg now store req a ha hnb]
  rfl

/-- Witness for the amended claim C10 at a concrete under-limit record. -/
theorem claim_C10_witness :
    login_unsuccessful none = false ∧
    decorated_login cfgDefault 20 "login" [attemptTwo] reqPost none =
      { response := .original none, store := [attemptTwo].erase attemptTwo,
        logged_out := false } :=
  claim_C10_falsy_resp_clears cfgDefault 20 "login" [attemptTwo] reqPost
    attemptTwo (by decide) rfl (by decide) (by decide)
